import Mathlib

/-!
# Verification of the lenstronomy sparse-fit orchestrator

Shallow embedding of `lenstronomy/ImSim/image_sparse_solve.py`
(class `ImageSparseFit`) and of
`lenstronomy/LensModel/Profiles/multi_gaussian_ellipse_kappa.py`
(class `MultiGaussianEllipseKappa`).

Machine floats are modelled by `PyFloat`: an exact rational payload or one
of the special values `nan`, `inf`, `ninf`.  External collaborators that
live outside the embedded source files (the SLITronomy sparse solver, the
inherited `ImageFit`/`ImageLinearFit` helpers, `de_lens.get_param_WLS`,
`PointSource.update_linear`, the numerics engine, the data class) appear
as abstract function fields of the orchestrator state `SparseFitState`,
universally quantified in the theorems.
-/

set_option linter.unusedVariables false

/-- Model of a Python/numpy floating point value: an exact rational,
or one of the non-finite specials. -/
inductive PyFloat where
  | finite : ℚ → PyFloat
  | nan : PyFloat
  | inf : PyFloat
  | ninf : PyFloat
deriving DecidableEq, Repr, Inhabited

/-- `np.isfinite`. -/
def PyFloat.isFinite : PyFloat → Bool
  | .finite _ => true
  | _ => false

/-- `np.isnan`. -/
def PyFloat.isNan : PyFloat → Bool
  | .nan => true
  | _ => false

/-- Largest finite double, `(2 - 2^-52) * 2^1023`, the value `np.nan_to_num`
substitutes for `+inf`. -/
def maxFloatQ : ℚ := 2 ^ 1024 - 2 ^ 971

/-- `np.nan_to_num` with default arguments: `nan -> 0.0`,
`+inf -> 1.7976931348623157e308`, `-inf -> -1.7976931348623157e308`,
finite values unchanged. -/
def PyFloat.nan_to_num : PyFloat → PyFloat
  | .nan => .finite 0
  | .inf => .finite maxFloatQ
  | .ninf => .finite (-maxFloatQ)
  | .finite q => .finite q

/-- IEEE-style subtraction on `PyFloat`. -/
def PyFloat.sub : PyFloat → PyFloat → PyFloat
  | .nan, _ => .nan
  | _, .nan => .nan
  | .inf, .inf => .nan
  | .inf, _ => .inf
  | .ninf, .ninf => .nan
  | .ninf, _ => .ninf
  | .finite _, .inf => .ninf
  | .finite _, .ninf => .inf
  | .finite a, .finite b => .finite (a - b)

/-- Reciprocal `1 / x` as numpy computes it elementwise:
`1 / 0.0 = inf`, `1 / inf = 0.0`, `1 / nan = nan`. -/
def PyFloat.recip : PyFloat → PyFloat
  | .finite q => if q = 0 then .inf else .finite q⁻¹
  | .inf => .finite 0
  | .ninf => .finite 0
  | .nan => .nan

/-- 1d numpy array. -/
abbrev Vec := List PyFloat

/-- 2d numpy array. -/
abbrev Mat := List (List PyFloat)

/-- Elementwise subtraction of two 1d arrays of equal length
(numpy broadcasting of unequal lengths is an error and never happens on
this code path). -/
def vecSub (a b : Vec) : Vec := List.zipWith PyFloat.sub a b

/-- Elementwise `1 / x` on a 1d array. -/
def vecRecip (a : Vec) : Vec := a.map PyFloat.recip

/-- `A.T` for a rectangular 2d array. -/
def matTranspose (m : Mat) : Mat :=
  match m with
  | [] => []
  | r0 :: _ => (List.range r0.length).map (fun j => m.map (fun row => row.getD j (.finite 0)))

/-- Entry `(i, j)` of a 2d array, defaulting to `0.0` out of range. -/
def entryD (m : Mat) (i j : Nat) : PyFloat :=
  (m.getD i []).getD j (.finite 0)

/-- The keyword-argument dictionary of one profile.  The four grid-geometry keys
rewritten by `ImageSparseFit.update_fixed_param` are explicit fields; every
other key/value pair of the dictionary is kept opaquely in `extra`. -/
structure PixelKwargs where
  n_pixels : Nat
  scale : ℚ
  center_x : ℚ
  center_y : ℚ
  extra : List (String × ℚ)
deriving DecidableEq, Repr, Inhabited

/-- A parameter bundle: ordered list of per-profile kwargs dictionaries. -/
abbrev Kw := List PixelKwargs

/-- The part of the `ImageData` instance the embedded methods read. -/
structure DataGeom where
  num_pixel : Nat
  pixel_width : ℚ
deriving DecidableEq, Repr, Inhabited

/-! ## `ImageSparseFit.__init__`: sparse-solver mode selection -/

/-- The three SLITronomy solver variants the constructor can instantiate. -/
inductive SolverMode where
  | source
  | sourceLens
  | sourcePS
deriving DecidableEq, Repr

/-- `len(model_list) == 1 and model_list[0] in [STARLETS, STARLETS_GEN2]`
(the constructor raises `ValueError` exactly when this is false for the
inspected list). -/
def isSingleStarlet (model_list : List String) : Bool :=
  match model_list with
  | [p] => p == "STARLETS" || p == "STARLETS_GEN2"
  | _ => false

/-- `self.LensLightModel is None or len(self.LensLightModel.profile_type_list) == 0`. -/
def no_lens_light (lens_light_model : Option (List String)) : Bool :=
  match lens_light_model with
  | none => true
  | some l => l.isEmpty

/-- `self.PointSource is None or len(self.PointSource.point_source_type_list) == 0`. -/
def no_point_sources (point_source_model : Option (List String)) : Bool :=
  match point_source_model with
  | none => true
  | some l => l.isEmpty

/-- Warning printed in the point-source mode when the PSF error map is not
identically zero. -/
def psWarnMsg : String :=
  "WARNING : SparseSolver with point sources does not support PSF error map for now !"

/-- Mode-selection part of `ImageSparseFit.__init__` (lines 53-77).
Inputs are the profile-type lists of the light models (with `none` for an
absent model class), and the PSF error-map array.  The result is the
constructed `sparseSolver` attribute (`none` when no branch of the
`if`/`elif` chain fires and the attribute is never assigned) together with
the warnings printed; `Except.error` models `raise ValueError`. -/
def imageSparseFit_init (lens_light_model : Option (List String))
    (point_source_model : Option (List String))
    (source_model_list : List String)
    (psf_error_map : List ℚ) : Except String (Option SolverMode × List String) :=
  if no_lens_light lens_light_model && no_point_sources point_source_model then
    if isSingleStarlet source_model_list then
      .ok (some .source, [])
    else
      .error "STARLETS or STARLETS_GEN2 must be the only source model list for sparse fit"
  else if no_point_sources point_source_model then
    if isSingleStarlet (lens_light_model.getD []) then
      .ok (some .sourceLens, [])
    else
      .error "STARLETS or STARLETS_GEN2 must be the only lens light model list for sparse fit"
  else if no_lens_light lens_light_model then
    let warns := if psf_error_map.all (fun q => decide (q = 0)) then [] else [psWarnMsg]
    .ok (some .sourcePS, warns)
  else
    -- both lens light and point sources present: no branch fires,
    -- `self.sparseSolver` is never assigned and no error is raised
    .ok (none, [])

/-! ## Orchestrator state

Abstract fields stand for collaborators defined outside
`image_sparse_solve.py` (inherited `ImageFit`/`ImageLinearFit` methods,
the data class, numerics, SLITronomy, `de_lens`, `PointSource`). -/

structure SparseFitState where
  /-- `self.Data` geometry (`num_pixel`, `pixel_width`). -/
  dat : DataGeom
  /-- `self._subgrid_res_source`. -/
  subgrid_res_source : Nat
  /-- `self.data_response` (inherited): masked 1d data vector. -/
  data_response : Vec
  /-- `self.num_data_evaluate` (inherited). -/
  num_data_evaluate : Nat
  /-- `self.likelihood_mask`. -/
  likelihood_mask : Mat
  /-- `self._error_response(kwargs_lens, kwargs_ps, kwargs_special)`
  (inherited): returns `(C_D_response, model_error)`. -/
  error_response : Kw → Option Kw → Option Kw → Vec × Vec
  /-- `self.point_source(kwargs_ps, kwargs_lens, kwargs_special)`
  (inherited): initial point-source model image. -/
  point_source : Option Kw → Kw → Option Kw → Mat
  /-- `self.sparseSolver.solve(kwargs_lens, kwargs_source, kwargs_lens_light,
  kwargs_ps, kwargs_special, init_ps_model)` (SLITronomy):
  returns `(model, param)`. -/
  solver_solve : Kw → Kw → Option Kw → Option Kw → Option Kw → Mat → Mat × Vec
  /-- `self.Data.log_likelihood(model, mask, model_error)`. -/
  data_log_likelihood : Mat → Mat → Vec → PyFloat
  /-- `self.image2array_masked(image)` (inherited). -/
  image2array_masked : Mat → Vec
  /-- `self.array_masked2image(array)` (inherited). -/
  array_masked2image : Vec → Mat
  /-- `de_lens.get_param_WLS(A_T, w, d, inv_bool)`:
  returns `(param, cov_param, wls_model)`. -/
  get_param_WLS : Mat → Vec → Vec → Bool → Vec × Option Mat × Vec
  /-- `self.PointSource.update_linear(param, i, kwargs_ps, kwargs_lens)`:
  writes solved amplitudes into the point-source bundle. -/
  ps_update_linear : Vec → Nat → Option Kw → Kw → Option Kw × Nat
  /-- `self.point_source_linear_response_set(kwargs_ps, kwargs_lens,
  kwargs_special, with_amp)` (inherited):
  returns `(ra_pos, dec_pos, amp, num_param)`. -/
  point_source_linear_response_set :
      Option Kw → Kw → Option Kw → Bool → List Vec × List Vec × List Vec × Nat
  /-- `self.ImageNumerics.point_source_rendering(ra, dec, amp)`. -/
  point_source_rendering : Vec → Vec → Vec → Mat
  /-- `self.update_linear_kwargs(param, kwargs_lens, kwargs_source,
  kwargs_lens_light, kwargs_ps)` (inherited). -/
  update_linear_kwargs : Vec → Kw → Kw → Option Kw → Option Kw →
      Kw × Kw × Option Kw × Option Kw
  /-- `self.LensLightModel.surface_brightness(ra_grid, dec_grid,
  kwargs_lens_light, k)`. -/
  lens_light_sb : List ℚ → List ℚ → Kw → Option Nat → Vec
  /-- `self.ImageNumerics.coordinates_evaluate`: `(ra_grid, dec_grid)`. -/
  coordinates_evaluate : List ℚ × List ℚ
  /-- `util.array2image(array)`. -/
  array2image : Vec → Mat

/-! ## Methods of `ImageSparseFit` -/

/-- `ImageSparseFit.update_fixed_param` (lines 282-295).  Rewrites the
grid-geometry keys of the first source kwargs dictionary (and of the first
lens-light dictionary when the lens-light bundle is present and non-empty)
to the current data geometry.  `kwargs_source[0]` raises `IndexError` on an
empty source bundle, modelled by `none`. -/
def update_fixed_param (dat : DataGeom) (subgrid_res_source : Nat)
    (kwargs_source : Kw) (kwargs_lens_light : Option Kw) : Option (Kw × Option Kw) :=
  match kwargs_source with
  | [] => none
  | k0 :: rest =>
    let k0' : PixelKwargs :=
      { k0 with
        n_pixels := dat.num_pixel * subgrid_res_source ^ 2,
        scale := dat.pixel_width / (subgrid_res_source : ℚ),
        center_x := 0,
        center_y := 0 }
    let kll' : Option Kw :=
      match kwargs_lens_light with
      | none => none
      | some [] => some []
      | some (l0 :: lrest) =>
        some ({ l0 with
                n_pixels := dat.num_pixel,
                scale := dat.pixel_width,
                center_x := 0,
                center_y := 0 } :: lrest)
    some (k0' :: rest, kll')

/-- `ImageSparseFit.update_sparse_kwargs` (lines 270-280). -/
def update_sparse_kwargs (s : SparseFitState) (param : Vec) (kwargs_lens kwargs_source : Kw)
    (kwargs_lens_light kwargs_ps : Option Kw) :
    Option (Kw × Kw × Option Kw × Option Kw) :=
  match update_fixed_param s.dat s.subgrid_res_source kwargs_source kwargs_lens_light with
  | none => none
  | some (ks', kll') => some (s.update_linear_kwargs param kwargs_lens ks' kll' kwargs_ps)

/-- `ImageSparseFit._image_sparse_solve` (lines 153-173): noise model,
initial point-source model, SLITronomy solve, write-back of linear
parameters; returns `(model, model_error, param)` (and, in this explicit
state-passing embedding, the updated bundles of the write-back).
`none` models an exception escaping from `update_sparse_kwargs`. -/
def image_sparse_solve_impl (s : SparseFitState) (kwargs_lens kwargs_source : Kw)
    (kwargs_lens_light kwargs_ps kwargs_extinction kwargs_special : Option Kw) :
    Option (Mat × Vec × Vec × (Kw × Kw × Option Kw × Option Kw)) :=
  let model_error := (s.error_response kwargs_lens kwargs_ps kwargs_special).2
  let init_ps_model := s.point_source kwargs_ps kwargs_lens kwargs_special
  let solved := s.solver_solve kwargs_lens kwargs_source kwargs_lens_light
      kwargs_ps kwargs_special init_ps_model
  let model := solved.1
  let param := solved.2
  match update_sparse_kwargs s param kwargs_lens kwargs_source kwargs_lens_light kwargs_ps with
  | none => none
  | some updated => some (model, model_error, param, updated)

/-- The data log-likelihood of the sparse forward model: the value
`self.Data.log_likelihood(im_sim, self.likelihood_mask, model_error)`
computed inside `_likelihood_data_given_model` before the finiteness
gate. -/
def forward_logL (s : SparseFitState) (kwargs_lens kwargs_source : Kw)
    (kwargs_lens_light kwargs_special : Option Kw) : Option PyFloat :=
  match image_sparse_solve_impl s kwargs_lens kwargs_source kwargs_lens_light
      none none kwargs_special with
  | none => none
  | some (im_sim, model_error, _param, _updated) =>
    some (s.data_log_likelihood im_sim s.likelihood_mask model_error)

/-- `ImageSparseFit._likelihood_data_given_model` (lines 191-213).  Note the
call to `_image_sparse_solve` forwards `kwargs_lens`, `kwargs_source`,
`kwargs_lens_light` and `kwargs_special` only: `kwargs_ps` is NOT passed
and defaults to `None` inside the solve. -/
def likelihood_data_given_model_impl (s : SparseFitState) (kwargs_lens kwargs_source : Kw)
    (kwargs_lens_light kwargs_ps kwargs_special : Option Kw) : Option PyFloat :=
  match image_sparse_solve_impl s kwargs_lens kwargs_source kwargs_lens_light
      none none kwargs_special with
  | none => none
  | some (im_sim, model_error, _param, _updated) =>
    let logL := s.data_log_likelihood im_sim s.likelihood_mask model_error
    if logL.isFinite then some logL else some (.finite (-(10 ^ 20)))

/-- `ImageSparseFit.likelihood_data_given_model` (lines 175-189): public
wrapper, forwards everything (including `kwargs_ps`) to
`_likelihood_data_given_model`. -/
def likelihood_data_given_model (s : SparseFitState) (kwargs_lens kwargs_source : Kw)
    (kwargs_lens_light kwargs_ps kwargs_special : Option Kw) : Option PyFloat :=
  likelihood_data_given_model_impl s kwargs_lens kwargs_source kwargs_lens_light
    kwargs_ps kwargs_special

/-- Warning printed by `lens_surface_brightness` on an `unconvolved=True`
request. -/
def lensLightWarnMsg : String :=
  "WARNING : sparse solver for lens light does not perform deconvolution of lens light, returning convolved estimate instead"

/-- `ImageSparseFit.lens_surface_brightness` (lines 115-133): evaluates the
lens-light model on the image-plane evaluation coordinates and reshapes;
the `unconvolved` flag only controls the warning, never the computation.
Returns the pixel array together with the warnings printed. -/
def lens_surface_brightness (s : SparseFitState) (kwargs_lens_light : Kw)
    (unconvolved : Bool) (k : Option Nat) : Mat × List String :=
  let warns := if unconvolved then [lensLightWarnMsg] else []
  let lens_light := s.lens_light_sb s.coordinates_evaluate.1 s.coordinates_evaluate.2
      kwargs_lens_light k
  (s.array2image lens_light, warns)

/-- `ImageSparseFit.point_source_linear_response_matrix` before the final
`np.nan_to_num` call: `A = np.zeros((num_param, num_response))`, and row `i`
is then overwritten by `self.image2array_masked(image)` for the rendered
point-source image of parameter `i` (the numpy row assignment requires that
masked image to have length `num_data_evaluate`, so the zero initialisation
never survives into any row). -/
def point_source_raw_response_matrix (s : SparseFitState) (kwargs_lens : Kw)
    (kwargs_ps kwargs_special : Option Kw) : Mat :=
  let response_set :=
    s.point_source_linear_response_set kwargs_ps kwargs_lens kwargs_special false
  let ra_pos := response_set.1
  let dec_pos := response_set.2.1
  let amp := response_set.2.2.1
  let num_param := response_set.2.2.2
  (List.range num_param).map (fun i =>
    s.image2array_masked
      (s.point_source_rendering (ra_pos.getD i []) (dec_pos.getD i []) (amp.getD i [])))

/-- `ImageSparseFit.point_source_linear_response_matrix` (lines 237-256):
the assembled matrix with `np.nan_to_num` applied entrywise. -/
def point_source_linear_response_matrix (s : SparseFitState) (kwargs_lens : Kw)
    (kwargs_ps kwargs_special : Option Kw) : Mat :=
  (point_source_raw_response_matrix s kwargs_lens kwargs_ps kwargs_special).map
    (fun row => row.map PyFloat.nan_to_num)

/-- `ImageSparseFit.update_linear_kwargs_point_source` (lines 258-268). -/
def update_linear_kwargs_point_source (s : SparseFitState) (param : Vec)
    (kwargs_lens : Kw) (kwargs_ps : Option Kw) : Kw × Option Kw :=
  let kwargs_ps' := (s.ps_update_linear param 0 kwargs_ps kwargs_lens).1
  (kwargs_lens, kwargs_ps')

/-- The residual data vector of the point-source linear solve: the masked
data response minus the masked current sparse pixel model
(`d = self.data_response - self.image2array_masked(sparse_model)`). -/
def residual_data_vector (s : SparseFitState) (sparse_model : Mat) : Vec :=
  vecSub s.data_response (s.image2array_masked sparse_model)

/-- `ImageSparseFit._image_linear_solve_point_sources` (lines 215-235):
WLS solve of the point-source amplitudes against the residual image, with
write-back into the point-source bundle.  Returns
`(model, model_error, cov_param, param)` plus, in this explicit
state-passing embedding, the updated point-source bundle produced by the
in-place `update_linear_kwargs_point_source` mutation. -/
def image_linear_solve_point_sources (s : SparseFitState) (sparse_model : Mat)
    (kwargs_lens : Kw) (kwargs_ps kwargs_special : Option Kw) (inv_bool : Bool) :
    Mat × Vec × Option Mat × Vec × Option Kw :=
  let A := point_source_linear_response_matrix s kwargs_lens kwargs_ps kwargs_special
  let C_D_response := (s.error_response kwargs_lens kwargs_ps kwargs_special).1
  let model_error := (s.error_response kwargs_lens kwargs_ps kwargs_special).2
  let d := vecSub s.data_response (s.image2array_masked sparse_model)
  let sol := s.get_param_WLS (matTranspose A) (vecRecip C_D_response) d inv_bool
  let param := sol.1
  let cov_param := sol.2.1
  let wls_model := sol.2.2
  let kwargs_ps' := (update_linear_kwargs_point_source s param kwargs_lens kwargs_ps).2
  let model := s.array_masked2image wls_model
  (model, model_error, cov_param, param, kwargs_ps')

/-! ## `MultiGaussianEllipseKappa.hessian` -/

/-- Type of `GaussianEllipseKappa.hessian` (a collaborator outside the
embedded file): maps `(x, y, amp, sigma, e1, e2, center_x, center_y)` to
the four Hessian components `(f_xx, f_xy, f_yx, f_yy)`. -/
abbrev GaussHessianFn := ℚ → ℚ → ℚ → ℚ → ℚ → ℚ → ℚ → ℚ → ℚ × ℚ × ℚ × ℚ

/-- `MultiGaussianEllipseKappa.hessian` (lines 128-173): starting from zero
accumulators, loop `for i in range(len(amp))`, destructure the single
Gaussian Hessian as `f_xx_i, f_xy_i, _, f_yy_i` (the third component is
discarded) and accumulate; return `(f_xx, f_xy, f_xy, f_yy)`.  Since the
loop reads `sigma[i]` for every `i < len(amp)`, a `sigma` shorter than
`amp` raises `IndexError`, modelled by `none`. -/
def multiGaussianEllipseKappa_hessian (gauss_hessian : GaussHessianFn) (x y : ℚ)
    (amp sigma : List ℚ) (e1 e2 center_x center_y : ℚ) : Option (ℚ × ℚ × ℚ × ℚ) :=
  if amp.length ≤ sigma.length then
    let acc := (List.range amp.length).foldl
      (fun (acc : ℚ × ℚ × ℚ) i =>
        let (f_xx_i, f_xy_i, _, f_yy_i) :=
          gauss_hessian x y (amp.getD i 0) (sigma.getD i 0) e1 e2 center_x center_y
        (acc.1 + f_xx_i, acc.2.1 + f_xy_i, acc.2.2 + f_yy_i))
      (0, 0, 0)
    some (acc.1, acc.2.1, acc.2.1, acc.2.2)
  else none

/-! ## Helper lemmas -/

/-- `nan_to_num` never returns `nan`. -/
theorem PyFloat.nan_to_num_not_nan (x : PyFloat) : (PyFloat.nan_to_num x).isNan = false := by
  cases x <;> rfl

/-- `getD` through an entrywise `nan_to_num` map, using that
`nan_to_num 0.0 = 0.0` absorbs the out-of-range default. -/
theorem vec_getD_map_nan_to_num (r : Vec) (j : Nat) :
    (r.map PyFloat.nan_to_num).getD j (.finite 0) =
      PyFloat.nan_to_num (r.getD j (.finite 0)) := by
  induction r generalizing j with
  | nil => rfl
  | cons a t ih =>
    cases j with
    | zero => rfl
    | succ j => simpa using ih j

/-- Entry extraction through an entrywise `nan_to_num` map of a matrix. -/
theorem entryD_map_nan_to_num (m : Mat) (i j : Nat) :
    entryD (m.map (fun row => row.map PyFloat.nan_to_num)) i j =
      PyFloat.nan_to_num (entryD m i j) := by
  induction m generalizing i with
  | nil => simp [entryD, PyFloat.nan_to_num]
  | cons r t ih =>
    cases i with
    | zero => simpa [entryD] using vec_getD_map_nan_to_num r j
    | succ i => simpa [entryD] using ih i

/-- A fully concrete orchestrator state, used to evaluate the theorems at
explicit inputs. -/
def testState : SparseFitState where
  dat := ⟨4, 1 / 2⟩
  subgrid_res_source := 2
  data_response := [.finite 3, .finite 5]
  num_data_evaluate := 2
  likelihood_mask := [[.finite 1]]
  error_response := fun _ _ _ => ([.finite 2, .finite 4], [.finite 0, .finite 0])
  point_source := fun _ _ _ => [[.finite 1]]
  solver_solve := fun _ _ _ _ _ _ => ([[.finite 1]], [.finite 7])
  data_log_likelihood := fun _ _ _ => .nan
  image2array_masked := fun m => m.getD 0 []
  array_masked2image := fun v => [v]
  get_param_WLS := fun _ w d _ => (d ++ w, none, d)
  ps_update_linear := fun param i kps _ => (some [⟨param.length, 0, 0, 0, []⟩], i)
  point_source_linear_response_set := fun _ _ _ _ =>
    ([[.finite 1]], [[.finite 1]], [[.finite 1]], 1)
  point_source_rendering := fun _ _ _ => [[.nan, .finite 2]]
  update_linear_kwargs := fun _ kl ks kll kps => (kl, ks, kll, kps)
  lens_light_sb := fun _ _ _ _ => [.finite 9]
  coordinates_evaluate := ([0], [0])
  array2image := fun v => [v]

/-! ## Claim theorems -/

/-- C1 (counterexample): constructing with a non-empty lens-light list AND a
non-empty point-source list does NOT raise: the constructor returns normally,
with no solver mode selected (the `sparseSolver` attribute is never
assigned), refuting the claim that a configuration error is raised at
construction time. -/
theorem sparse_init_both_present_returns_ok :
    imageSparseFit_init (some ["STARLETS"]) (some ["SOURCE_POSITION"]) ["STARLETS"] [0] =
      .ok (none, []) := rfl

/-- C1 (amended): whenever both the lens-light model list and the
point-source model list are non-empty, construction succeeds without any
error or warning, selecting none of the three sparse-solver modes and
leaving the sparse-solver attribute unassigned. -/
theorem sparse_init_both_present_no_error (llm psm : Option (List String))
    (src : List String) (em : List ℚ)
    (hll : no_lens_light llm = false) (hps : no_point_sources psm = false) :
    imageSparseFit_init llm psm src em = .ok (none, []) := by
  simp [imageSparseFit_init, hll, hps]

/-- C1 (witness for the amended theorem). -/
theorem sparse_init_both_present_no_error_witness :
    imageSparseFit_init (some ["SERSIC"]) (some ["LENSED_POSITION"]) ["STARLETS"] [1] =
      .ok (none, []) :=
  sparse_init_both_present_no_error (some ["SERSIC"]) (some ["LENSED_POSITION"])
    ["STARLETS"] [1] rfl rfl

/-- C3: with no point sources, construction in the source-only mode
(`no_lens_light` true) succeeds exactly when the source model list is a
single `STARLETS`/`STARLETS_GEN2` profile and raises `ValueError` otherwise;
in the source-plus-lens-light mode (`no_lens_light` false) the analogous
single-starlet requirement is imposed on the lens-light model list. -/
theorem sparse_init_single_starlet_required (llm psm : Option (List String))
    (src : List String) (em : List ℚ)
    (hps : no_point_sources psm = true) :
    (no_lens_light llm = true →
      (isSingleStarlet src = true →
          imageSparseFit_init llm psm src em = .ok (some .source, []))
      ∧ (isSingleStarlet src = false →
          imageSparseFit_init llm psm src em =
            .error "STARLETS or STARLETS_GEN2 must be the only source model list for sparse fit"))
    ∧ (no_lens_light llm = false →
      (isSingleStarlet (llm.getD []) = true →
          imageSparseFit_init llm psm src em = .ok (some .sourceLens, []))
      ∧ (isSingleStarlet (llm.getD []) = false →
          imageSparseFit_init llm psm src em =
            .error "STARLETS or STARLETS_GEN2 must be the only lens light model list for sparse fit")) := by
  constructor <;> intro h1 <;> constructor <;> intro h2 <;>
    simp [imageSparseFit_init, hps, h1, h2]

/-- C3 (witness): source-only construction with the single STARLETS profile
succeeds in the source mode, and with a non-starlet source list it raises. -/
theorem sparse_init_single_starlet_required_witness :
    imageSparseFit_init none none ["STARLETS"] [] = .ok (some .source, [])
    ∧ imageSparseFit_init none none ["SERSIC"] [] =
        .error "STARLETS or STARLETS_GEN2 must be the only source model list for sparse fit" :=
  ⟨((sparse_init_single_starlet_required none none ["STARLETS"] [] rfl).1 rfl).1 rfl,
   ((sparse_init_single_starlet_required none none ["SERSIC"] [] rfl).1 rfl).2 rfl⟩

/-- C8: in the point-source sparse mode (point sources present, no lens
light), construction always proceeds (returns the `sourcePS` solver, never
an error), printing the unsupported-PSF-error-map warning exactly when the
supplied PSF error map is not identically zero. -/
theorem sparse_init_ps_psf_error_map_warning (llm psm : Option (List String))
    (src : List String) (em : List ℚ)
    (hll : no_lens_light llm = true) (hps : no_point_sources psm = false) :
    (¬ (∀ q ∈ em, q = 0) →
        imageSparseFit_init llm psm src em = .ok (some .sourcePS, [psWarnMsg]))
    ∧ ((∀ q ∈ em, q = 0) →
        imageSparseFit_init llm psm src em = .ok (some .sourcePS, [])) := by
  have hb : (em.all (fun q => decide (q = 0)) = true) ↔ ∀ q ∈ em, q = 0 := by
    simp [List.all_eq_true]
  constructor
  · intro hne
    have hf : em.all (fun q => decide (q = 0)) = false := by
      cases hall : em.all (fun q => decide (q = 0)) with
      | true => exact absurd (hb.mp hall) hne
      | false => rfl
    simp [imageSparseFit_init, hll, hps, hf]
  · intro he
    have ht : em.all (fun q => decide (q = 0)) = true := hb.mpr he
    simp [imageSparseFit_init, hll, hps, ht]

/-- C8 (witness): with a nonzero error map the warning is printed; with a
zero map it is not. -/
theorem sparse_init_ps_psf_error_map_warning_witness :
    imageSparseFit_init none (some ["LENSED_POSITION"]) ["STARLETS"] [0, 1] =
      .ok (some .sourcePS, [psWarnMsg])
    ∧ imageSparseFit_init none (some ["LENSED_POSITION"]) ["STARLETS"] [0, 0] =
      .ok (some .sourcePS, []) :=
  ⟨(sparse_init_ps_psf_error_map_warning none (some ["LENSED_POSITION"]) ["STARLETS"]
      [0, 1] rfl rfl).1 (by norm_num),
   (sparse_init_ps_psf_error_map_warning none (some ["LENSED_POSITION"]) ["STARLETS"]
      [0, 0] rfl rfl).2 (by norm_num)⟩

/-- C2: whenever the forward model completes and the data log-likelihood it
computes is non-finite, `likelihood_data_given_model` returns exactly the
penalty constant `-1e20` (a value, not an exception); whenever that
log-likelihood is finite, it is returned unchanged. -/
theorem likelihood_nonfinite_penalty (s : SparseFitState) (kl ks : Kw)
    (kll kps ksp : Option Kw) (logL : PyFloat)
    (h : forward_logL s kl ks kll ksp = some logL) :
    (logL.isFinite = false →
      likelihood_data_given_model s kl ks kll kps ksp = some (.finite (-(10 ^ 20))))
    ∧ (logL.isFinite = true →
      likelihood_data_given_model s kl ks kll kps ksp = some logL) := by
  unfold forward_logL at h
  unfold likelihood_data_given_model likelihood_data_given_model_impl
  cases himpl : image_sparse_solve_impl s kl ks kll none none ksp with
  | none => rw [himpl] at h; exact absurd h (by simp)
  | some t =>
    rw [himpl] at h
    obtain ⟨im_sim, model_error, param, updated⟩ := t
    simp only [Option.some.injEq] at h
    subst h
    constructor <;> intro hf <;> simp [hf]

/-- C2 (witness): on a concrete state whose data log-likelihood is `nan`,
the likelihood evaluates to exactly `-1e20`. -/
theorem likelihood_nonfinite_penalty_witness :
    likelihood_data_given_model testState [] [default] none none none =
      some (.finite (-(10 ^ 20))) :=
  (likelihood_nonfinite_penalty testState [] [default] none none none .nan rfl).1 rfl

/-- C5: `likelihood_data_given_model` returns the same log-likelihood for
any two values of `kwargs_ps`, all other arguments and the instance state
being equal: the point-source bundle is accepted but never forwarded into
the sparse forward model. -/
theorem likelihood_ignores_kwargs_ps (s : SparseFitState) (kl ks : Kw)
    (kll ksp kps₁ kps₂ : Option Kw) :
    likelihood_data_given_model s kl ks kll kps₁ ksp =
      likelihood_data_given_model s kl ks kll kps₂ ksp := rfl

/-- C4: `lens_surface_brightness` returns a pixel array that is identical
for `unconvolved=True` and `unconvolved=False` (the flag never enters the
computation), and the deconvolution warning is printed exactly on the
`unconvolved=True` request. -/
theorem lens_surface_brightness_ignores_unconvolved (s : SparseFitState)
    (kwargs_lens_light : Kw) (k : Option Nat) :
    (lens_surface_brightness s kwargs_lens_light true k).1 =
      (lens_surface_brightness s kwargs_lens_light false k).1
    ∧ (lens_surface_brightness s kwargs_lens_light true k).2 = [lensLightWarnMsg]
    ∧ (lens_surface_brightness s kwargs_lens_light false k).2 = [] :=
  ⟨rfl, rfl, rfl⟩

/-- C6: in `_image_linear_solve_point_sources` the data vector handed to the
weighted-least-squares solver is exactly the residual
`data_response - image2array_masked(sparse_model)`, the weights are
`1 / C_D_response`, the design matrix is the transposed point-source
response matrix, and the solved amplitudes are written back into the
point-source bundle via `PointSource.update_linear`. -/
theorem ps_linear_solve_residual_and_writeback (s : SparseFitState) (sparse_model : Mat)
    (kwargs_lens : Kw) (kwargs_ps kwargs_special : Option Kw) (inv_bool : Bool) :
    (image_linear_solve_point_sources s sparse_model kwargs_lens kwargs_ps kwargs_special
        inv_bool).2.2.2.1 =
      (s.get_param_WLS
        (matTranspose (point_source_linear_response_matrix s kwargs_lens kwargs_ps kwargs_special))
        (vecRecip (s.error_response kwargs_lens kwargs_ps kwargs_special).1)
        (residual_data_vector s sparse_model) inv_bool).1
    ∧ (image_linear_solve_point_sources s sparse_model kwargs_lens kwargs_ps kwargs_special
        inv_bool).2.2.2.2 =
      (s.ps_update_linear
        (s.get_param_WLS
          (matTranspose (point_source_linear_response_matrix s kwargs_lens kwargs_ps kwargs_special))
          (vecRecip (s.error_response kwargs_lens kwargs_ps kwargs_special).1)
          (residual_data_vector s sparse_model) inv_bool).1
        0 kwargs_ps kwargs_lens).1
    ∧ (image_linear_solve_point_sources s sparse_model kwargs_lens kwargs_ps kwargs_special
        inv_bool).1 =
      s.array_masked2image
        (s.get_param_WLS
          (matTranspose (point_source_linear_response_matrix s kwargs_lens kwargs_ps kwargs_special))
          (vecRecip (s.error_response kwargs_lens kwargs_ps kwargs_special).1)
          (residual_data_vector s sparse_model) inv_bool).2.2 :=
  ⟨rfl, rfl, rfl⟩

/-- C7: every entry of the matrix returned by
`point_source_linear_response_matrix` is `np.nan_to_num` of the
corresponding assembled raw entry, `nan_to_num` maps `nan` to `0.0`, and
consequently no entry of the returned matrix is NaN. -/
theorem ps_response_matrix_nan_scrubbed (s : SparseFitState) (kwargs_lens : Kw)
    (kwargs_ps kwargs_special : Option Kw) (i j : Nat) :
    entryD (point_source_linear_response_matrix s kwargs_lens kwargs_ps kwargs_special) i j =
      PyFloat.nan_to_num
        (entryD (point_source_raw_response_matrix s kwargs_lens kwargs_ps kwargs_special) i j)
    ∧ PyFloat.nan_to_num .nan = .finite 0
    ∧ (entryD (point_source_linear_response_matrix s kwargs_lens kwargs_ps kwargs_special)
        i j).isNan = false := by
  have hmap := entryD_map_nan_to_num
    (point_source_raw_response_matrix s kwargs_lens kwargs_ps kwargs_special) i j
  refine ⟨hmap, rfl, ?_⟩
  rw [show point_source_linear_response_matrix s kwargs_lens kwargs_ps kwargs_special =
      (point_source_raw_response_matrix s kwargs_lens kwargs_ps kwargs_special).map
        (fun row => row.map PyFloat.nan_to_num) from rfl, entryD_map_nan_to_num]
  exact PyFloat.nan_to_num_not_nan _

/-- C9: `update_fixed_param` is idempotent under unchanged data geometry —
the second call returns exactly the bundles produced by the first — and
each call rewrites the grid-geometry fields of the first source profile to
`n_pixels = num_pixel * subgrid_res_source^2`,
`scale = pixel_width / subgrid_res_source`, center `(0, 0)`, and
analogously (with the image-plane geometry) for the first lens-light
profile when a non-empty lens-light bundle is present. -/
theorem update_fixed_param_idempotent (dat : DataGeom) (sub : Nat)
    (kwargs_source : Kw) (kwargs_lens_light : Option Kw)
    (h : kwargs_source ≠ []) :
    ∃ ks₂ kll₂,
      update_fixed_param dat sub kwargs_source kwargs_lens_light = some (ks₂, kll₂)
      ∧ update_fixed_param dat sub ks₂ kll₂ = some (ks₂, kll₂)
      ∧ (ks₂.headD default).n_pixels = dat.num_pixel * sub ^ 2
      ∧ (ks₂.headD default).scale = dat.pixel_width / (sub : ℚ)
      ∧ (ks₂.headD default).center_x = 0
      ∧ (ks₂.headD default).center_y = 0
      ∧ (∀ l0 ls, kwargs_lens_light = some (l0 :: ls) →
          kll₂ = some ({ l0 with
            n_pixels := dat.num_pixel,
            scale := dat.pixel_width,
            center_x := 0,
            center_y := 0 } :: ls))
      ∧ (kwargs_lens_light = none → kll₂ = none)
      ∧ (kwargs_lens_light = some [] → kll₂ = some []) := by
  match kwargs_source, kwargs_lens_light with
  | [], _ => exact absurd rfl h
  | k0 :: rest, none =>
    exact ⟨_, _, rfl, rfl, rfl, rfl, rfl, rfl, (by intro _ _ hc; cases hc), (fun _ => rfl),
      (by intro hc; cases hc)⟩
  | k0 :: rest, some [] =>
    exact ⟨_, _, rfl, rfl, rfl, rfl, rfl, rfl, (by intro _ _ hc; cases hc),
      (by intro hc; cases hc), (fun _ => rfl)⟩
  | k0 :: rest, some (l0 :: ls) =>
    exact ⟨_, _, rfl, rfl, rfl, rfl, rfl, rfl, (by intro l0' ls' hc; cases hc; rfl),
      (by intro hc; cases hc), (by intro hc; cases hc)⟩

/-- C9 (witness): concrete geometry, one source profile and one lens-light
profile. -/
theorem update_fixed_param_idempotent_witness :
    ∃ ks₂ kll₂,
      update_fixed_param ⟨4, 1 / 2⟩ 2 [default] (some [default]) = some (ks₂, kll₂)
      ∧ update_fixed_param ⟨4, 1 / 2⟩ 2 ks₂ kll₂ = some (ks₂, kll₂)
      ∧ (ks₂.headD default).n_pixels = (4 : Nat) * 2 ^ 2
      ∧ (ks₂.headD default).scale = (1 / 2 : ℚ) / (2 : ℚ)
      ∧ (ks₂.headD default).center_x = 0
      ∧ (ks₂.headD default).center_y = 0
      ∧ (∀ l0 ls, (some [default] : Option Kw) = some (l0 :: ls) →
          kll₂ = some ({ l0 with
            n_pixels := 4,
            scale := (1 / 2 : ℚ),
            center_x := 0,
            center_y := 0 } :: ls))
      ∧ ((some [default] : Option Kw) = none → kll₂ = none)
      ∧ ((some [default] : Option Kw) = some [] → kll₂ = some []) :=
  update_fixed_param_idempotent ⟨4, 1 / 2⟩ 2 [default] (some [default]) (by simp)

/-- C10: whenever `MultiGaussianEllipseKappa.hessian` returns, the second
and third components of the returned four-tuple are the same accumulated
`f_xy` value, so the returned Hessian is exactly symmetric — for every
single-Gaussian Hessian collaborator, including ones whose own mixed
derivatives disagree. -/
theorem multi_gaussian_hessian_symmetric (gauss_hessian : GaussHessianFn) (x y : ℚ)
    (amp sigma : List ℚ) (e1 e2 center_x center_y : ℚ) (r : ℚ × ℚ × ℚ × ℚ)
    (h : multiGaussianEllipseKappa_hessian gauss_hessian x y amp sigma
           e1 e2 center_x center_y = some r) :
    r.2.1 = r.2.2.1 := by
  unfold multiGaussianEllipseKappa_hessian at h
  split at h
  · cases h; rfl
  · cases h

/-- C10 (witness): a single-Gaussian Hessian returning the asymmetric
tuple `(1, 2, 3, 4)` still yields a symmetric accumulated Hessian
`(1, 2, 2, 4)`. -/
theorem multi_gaussian_hessian_symmetric_witness :
    multiGaussianEllipseKappa_hessian (fun _ _ _ _ _ _ _ _ => (1, 2, 3, 4)) 0 0 [1] [1]
        0 0 0 0 = some (1, 2, 2, 4)
    ∧ ((1 : ℚ), (2 : ℚ), (2 : ℚ), (4 : ℚ)).2.1 =
        ((1 : ℚ), (2 : ℚ), (2 : ℚ), (4 : ℚ)).2.2.1 :=
  ⟨by simp [multiGaussianEllipseKappa_hessian, List.range_succ],
   multi_gaussian_hessian_symmetric (fun _ _ _ _ _ _ _ _ => (1, 2, 3, 4)) 0 0 [1] [1]
     0 0 0 0 (1, 2, 2, 4)
     (by simp [multiGaussianEllipseKappa_hessian, List.range_succ])⟩
